import Mathlib

/-!
Verification of the phone-assist voice relay server.

Shallow embedding of the code in `server/main.py`, `server/vad_processor.py`,
`server/stt/whisper_provider.py`, `server/stt/deepgram_provider.py` and
`server/indic_trans.py`.  Strings are `List Char`, PCM samples are `Int`
(signed 16-bit values), fallible calls return `Except`.
-/

/-- Python `str.strip()`: remove leading and trailing whitespace. -/
def pyStrip (s : List Char) : List Char :=
  ((s.dropWhile Char.isWhitespace).reverse.dropWhile Char.isWhitespace).reverse

/-- The prefix-diff of `stream_chunk` (main.py lines 114-117):
`new_part = current[len(previous):].strip()` when `current.startswith(previous)`,
otherwise `new_part = current` (no strip in the else branch). -/
def newPart (previous current : List Char) : List Char :=
  if previous.isPrefixOf current then pyStrip (current.drop previous.length)
  else current

/-- The buffer append of `stream_chunk` (main.py lines 104-109):
`audio_buffer.extend(pcm_data)` followed by
`if len(audio_buffer) > 80000: audio_buffer[:] = audio_buffer[-80000:]`. -/
def appendToBuffer (buf pcm : List Int) : List Int :=
  let b := buf ++ pcm
  if 80000 < b.length then b.drop (b.length - 80000) else b

/-- The last `n` elements of a list (Python `l[-n:]` for a long list,
`l` itself when `l` is no longer than `n`). -/
def lastN (n : Nat) (l : List Int) : List Int :=
  l.drop (l.length - n)

/-- The mutable module state of main.py: `audio_buffer` and `prev_transcript`. -/
structure ServerState where
  audio_buffer : List Int
  prev_transcript : List Char
deriving DecidableEq, Repr

/-- The possible responses of the `/stream/chunk` endpoint:
`{"transcript": new_part}`, `{"status": "waiting"}`, or a 500 error
(uncaught exception from the provider). -/
inductive ChunkResponse where
  | transcript : List Char → ChunkResponse
  | waiting : ChunkResponse
  | errorResp : List Char → ChunkResponse
deriving DecidableEq, Repr

/-- The `/stream/chunk` handler (main.py lines 94-126), abstracted over the
provider's `transcribe`.  The buffer is extended and truncated first; an
exception from `transcribe` propagates (500 response) after that mutation;
otherwise the prefix-diff is taken and `prev_transcript` is set to the new
raw transcript unconditionally (line 119) before the truthiness test. -/
def stream_chunk (transcribe : List Int → Except (List Char) (List Char))
    (st : ServerState) (pcm : List Int) : ChunkResponse × ServerState :=
  let buffer := appendToBuffer st.audio_buffer pcm
  match transcribe buffer with
  | Except.error e => (ChunkResponse.errorResp e, ⟨buffer, st.prev_transcript⟩)
  | Except.ok current =>
      let np := newPart st.prev_transcript current
      if np ≠ [] then (ChunkResponse.transcript np, ⟨buffer, current⟩)
      else (ChunkResponse.waiting, ⟨buffer, current⟩)

/-- Embeds `WhisperSTT.transcribe` (whisper_provider.py lines 96-129), abstracted over
the outcome of the underlying model invocation: on success the transcript text
is stripped and returned, on any exception the except branch returns `""`. -/
def whisper_transcribe (engineResult : Except (List Char) (List Char)) : List Char :=
  match engineResult with
  | Except.ok text => pyStrip text
  | Except.error _ => []

/-- Claim C1: when `current` starts with `previous`, the reconciliation step
computes `current[len(previous):]` trimmed of leading and trailing whitespace,
and when non-empty that trimmed increment is what the chunk handler returns as
the new text. -/
theorem reconcile_prefix_property (p c : List Char) (h : p.isPrefixOf c = true) :
    newPart p c = pyStrip (c.drop p.length) ∧
    ∀ (tr : List Int → Except (List Char) (List Char)) (st : ServerState)
      (pcm : List Int),
      st.prev_transcript = p →
      tr (appendToBuffer st.audio_buffer pcm) = Except.ok c →
      pyStrip (c.drop p.length) ≠ [] →
      (stream_chunk tr st pcm).1 = ChunkResponse.transcript (pyStrip (c.drop p.length)) := by
  constructor
  · simp [newPart, h]
  · intro tr st pcm hprev htr hne
    simp [stream_chunk, htr, newPart, hprev, h, hne]

theorem reconcile_prefix_property_witness :
    ("he".data.isPrefixOf "hello".data = true) ∧
    newPart "he".data "hello".data = pyStrip ("hello".data.drop "he".data.length) :=
  ⟨by decide, (reconcile_prefix_property "he".data "hello".data (by decide)).1⟩

/-- Claim C2, counterexample: `previous = "x"`, `current = " y "` does not start
with `previous`; the else branch (main.py line 117) returns `" y "` untrimmed,
not `trim(" y ") = "y"`. -/
theorem reconcile_restart_counterexample :
    ("x".data.isPrefixOf " y ".data = false) ∧
    newPart "x".data " y ".data ≠ pyStrip " y ".data := by
  constructor
  · decide
  · decide

/-- Claim C2 (amended): when `current` does not start with `previous`, the
reconciliation step returns `current` unchanged — the whole current transcript
without any trimming. -/
theorem reconcile_restart_property (p c : List Char) (h : p.isPrefixOf c = false) :
    newPart p c = c := by
  simp [newPart, h]

theorem reconcile_restart_property_witness :
    ("x".data.isPrefixOf " y ".data = false) ∧ newPart "x".data " y ".data = " y ".data :=
  ⟨by decide, reconcile_restart_property "x".data " y ".data (by decide)⟩

theorem appendToBuffer_eq_lastN (b y : List Int) :
    appendToBuffer b y = lastN 80000 (b ++ y) := by
  unfold appendToBuffer lastN
  by_cases h : 80000 < (b ++ y).length
  · rw [if_pos h]
  · rw [if_neg h]
    have h0 : (b ++ y).length - 80000 = 0 := by omega
    rw [h0, List.drop_zero]

theorem lastN_append_lastN (n : Nat) (xs y : List Int) :
    lastN n (lastN n xs ++ y) = lastN n (xs ++ y) := by
  unfold lastN
  rw [List.drop_append_eq_append_drop, List.drop_append_eq_append_drop,
      List.drop_drop, List.length_drop, List.length_append, List.length_append,
      List.length_drop]
  congr 2 <;> omega

theorem foldl_appendToBuffer (chunks : List (List Int)) (xs : List Int) :
    chunks.foldl appendToBuffer (lastN 80000 xs) = lastN 80000 (xs ++ chunks.flatten) := by
  induction chunks generalizing xs with
  | nil => rw [List.foldl_nil, List.flatten_nil, List.append_nil]
  | cons c cs ih =>
      rw [List.foldl_cons, List.flatten_cons, appendToBuffer_eq_lastN,
          lastN_append_lastN, ih, List.append_assoc]

/-- Claim C3: after any sequence of appends, the sliding audio buffer (capacity
80000) has length at most 80000 and its contents are exactly the last 80000
samples appended in order (all of them, in order, when fewer were appended). -/
theorem buffer_bound_invariant (chunks : List (List Int)) :
    (chunks.foldl appendToBuffer []).length ≤ 80000 ∧
    chunks.foldl appendToBuffer [] =
      chunks.flatten.drop (chunks.flatten.length - 80000) := by
  have h0 : (([] : List Int) = lastN 80000 []) := by rw [lastN, List.drop_nil]
  have h := foldl_appendToBuffer chunks []
  rw [← h0, List.nil_append] at h
  refine ⟨?_, h⟩
  rw [h, lastN, List.length_drop]
  omega

/-! ## Voice-activity segmenter (vad_processor.py) -/

/-- The mutable state of `VADProcessor` (vad_processor.py lines 11-15):
frame accumulation buffer, trailing-silence counter, in-speech flag. -/
structure VADState where
  buffer : List (List Int)
  silence_counter : Nat
  in_speech : Bool
deriving DecidableEq, Repr

/-- Embeds `VADProcessor.reset` (vad_processor.py lines 41-44). -/
def VADState.reset : VADState := ⟨[], 0, false⟩

/-- The loop body of `VADProcessor.process_audio` (vad_processor.py lines
21-39), over an explicit list of frames, abstracted over the binary
voice-activity classifier `vad` (`webrtcvad.Vad.is_speech`).  A frame shorter
than `FRAME_SIZE = 320` is skipped; a speech frame is accumulated, sets the
flag and zeroes the counter; a non-speech frame while in speech increments the
counter and is accumulated, and when the counter exceeds
`MAX_SILENCE_FRAMES = 15` the concatenated buffer is returned at once with the
state hard-reset; a non-speech frame outside speech is ignored. -/
def processFrames (vad : List Int → Bool) :
    VADState → List (List Int) → Bool × Option (List Int) × VADState
  | st, [] => (false, none, st)
  | st, f :: rest =>
      if f.length < 320 then processFrames vad st rest
      else if vad f then processFrames vad ⟨st.buffer ++ [f], 0, true⟩ rest
      else if st.in_speech then
        if 15 < st.silence_counter + 1 then
          (true, some (st.buffer ++ [f]).flatten, VADState.reset)
        else processFrames vad ⟨st.buffer ++ [f], st.silence_counter + 1, st.in_speech⟩ rest
      else processFrames vad st rest

/-- The section sizes of `np.array_split(ary, k)` on an array of length `L`:
`L % k` sections of size `L / k + 1` followed by the rest of size `L / k`. -/
def splitSizes (L k : Nat) : List Nat :=
  (List.range k).map (fun i => if i < L % k then L / k + 1 else L / k)

/-- Cut a list into consecutive pieces of the given sizes. -/
def splitBySizes : List Nat → List Int → List (List Int)
  | [], _ => []
  | n :: ns, l => l.take n :: splitBySizes ns (l.drop n)

/-- Embeds `VADProcessor.process_audio` (vad_processor.py lines 17-39):
`frames = np.array_split(pcm_data, len(pcm_data) // FRAME_SIZE)` followed by
the classification loop.  `np.array_split` with zero sections (input shorter
than `FRAME_SIZE = 320` samples) raises
`ValueError: number sections must be larger than 0.`, modelled as `Except.error`. -/
def process_audio (vad : List Int → Bool) (st : VADState) (pcm : List Int) :
    Except String (Bool × Option (List Int) × VADState) :=
  let k := pcm.length / 320
  if k = 0 then Except.error "number sections must be larger than 0."
  else Except.ok (processFrames vad st (splitBySizes (splitSizes pcm.length k) pcm))

/-- Claim C5, counterexample: on the empty input (fewer than 320 samples) the
segmenter does not return `(false, none)` with the state unchanged —
`np.array_split(pcm_data, 0)` raises, so `process_audio` errors. -/
theorem vad_short_input_counterexample :
    process_audio (fun _ => false) VADState.reset [] =
      Except.error "number sections must be larger than 0." ∧
    process_audio (fun _ => false) VADState.reset [] ≠
      Except.ok (false, none, VADState.reset) :=
  ⟨rfl, fun h => nomatch h⟩

/-- Claim C5 (amended): within the classification loop a frame shorter than
320 samples is skipped without being classified and without touching the
state; however, an input of fewer than 320 samples in total (including the
empty input) makes `process_audio` raise (`np.array_split` with zero
sections), rather than return `(false, none)`; the state is untouched because
the exception precedes any mutation. -/
theorem vad_short_frames_dropped_and_short_input_raises :
    (∀ (vad : List Int → Bool) (st : VADState) (f : List Int)
        (rest : List (List Int)), f.length < 320 →
        processFrames vad st (f :: rest) = processFrames vad st rest) ∧
    (∀ (vad : List Int → Bool) (st : VADState) (pcm : List Int),
        pcm.length < 320 →
        process_audio vad st pcm =
          Except.error "number sections must be larger than 0.") := by
  constructor
  · intro vad st f rest h
    simp [processFrames, h]
  · intro vad st pcm h
    have hk : pcm.length / 320 = 0 := Nat.div_eq_of_lt h
    simp [process_audio, hk]

theorem vad_short_frames_witness :
    (([3] : List Int).length < 320 ∧
      processFrames (fun _ => false) VADState.reset [[3]] =
        processFrames (fun _ => false) VADState.reset []) ∧
    (([] : List Int).length < 320 ∧
      process_audio (fun _ => false) VADState.reset [] =
        Except.error "number sections must be larger than 0.") :=
  ⟨⟨by decide, vad_short_frames_dropped_and_short_input_raises.1 _ _ _ _ (by decide)⟩,
   ⟨by decide, vad_short_frames_dropped_and_short_input_raises.2 _ _ _ (by decide)⟩⟩

theorem flatten_length_of_full (frames : List (List Int))
    (h : ∀ f ∈ frames, f.length = 320) :
    frames.flatten.length = 320 * frames.length := by
  induction frames with
  | nil => simp
  | cons f fs ih =>
      have hf : f.length = 320 := h f (by simp)
      have := ih (fun g hg => h g (by simp [hg]))
      simp [hf, this]
      ring

theorem splitSizes_full (n : Nat) (hn : n ≠ 0) :
    splitSizes (320 * n) n = List.replicate n 320 := by
  unfold splitSizes
  have hmod : 320 * n % n = 0 := Nat.mul_mod_left 320 n
  have hdiv : 320 * n / n = 320 := Nat.mul_div_cancel 320 (Nat.pos_of_ne_zero hn)
  simp [hmod, hdiv, List.eq_replicate_iff]

theorem splitBySizes_flatten (frames : List (List Int))
    (h : ∀ f ∈ frames, f.length = 320) :
    splitBySizes (List.replicate frames.length 320) frames.flatten = frames := by
  induction frames with
  | nil => rfl
  | cons f fs ih =>
      have hf : f.length = 320 := h f (by simp)
      simp only [List.length_cons, List.replicate_succ, splitBySizes,
        List.flatten_cons, List.take_left' hf, List.drop_left' hf]
      exact congrArg (f :: ·) (ih (fun g hg => h g (by simp [hg])))

theorem process_audio_full_frames (vad : List Int → Bool) (st : VADState)
    (frames : List (List Int)) (hne : frames ≠ [])
    (h : ∀ f ∈ frames, f.length = 320) :
    process_audio vad st frames.flatten =
      Except.ok (processFrames vad st frames) := by
  have hn : frames.length ≠ 0 := fun h0 => hne (List.length_eq_zero.mp h0)
  have hlen : frames.flatten.length = 320 * frames.length :=
    flatten_length_of_full frames h
  have hk : frames.flatten.length / 320 = frames.length := by
    rw [hlen]; exact Nat.mul_div_cancel_left _ (by norm_num)
  unfold process_audio
  rw [hk, if_neg hn, hlen, splitSizes_full _ hn, splitBySizes_flatten frames h]

theorem processFrames_cons_speech (vad : List Int → Bool) (st : VADState)
    (f : List Int) (rest : List (List Int))
    (hf : f.length = 320) (hv : vad f = true) :
    processFrames vad st (f :: rest) =
      processFrames vad ⟨st.buffer ++ [f], 0, true⟩ rest := by
  simp only [processFrames]
  rw [if_neg (by omega), if_pos hv]

theorem processFrames_cons_silence_cont (vad : List Int → Bool) (st : VADState)
    (f : List Int) (rest : List (List Int))
    (hf : f.length = 320) (hv : vad f = false) (hsp : st.in_speech = true)
    (hsc : st.silence_counter + 1 ≤ 15) :
    processFrames vad st (f :: rest) =
      processFrames vad ⟨st.buffer ++ [f], st.silence_counter + 1, st.in_speech⟩ rest := by
  simp only [processFrames]
  rw [if_neg (by omega), if_neg (by simp [hv]), if_pos hsp, if_neg (by omega)]

theorem processFrames_cons_silence_final (vad : List Int → Bool) (st : VADState)
    (f : List Int) (rest : List (List Int))
    (hf : f.length = 320) (hv : vad f = false) (hsp : st.in_speech = true)
    (hsc : 15 < st.silence_counter + 1) :
    processFrames vad st (f :: rest) =
      (true, some (st.buffer ++ [f]).flatten, VADState.reset) := by
  simp only [processFrames]
  rw [if_neg (by omega), if_neg (by simp [hv]), if_pos hsp, if_pos hsc]

theorem processFrames_speech_phase (vad : List Int → Bool)
    (S rest : List (List Int)) (st : VADState)
    (hlen : ∀ f ∈ S, f.length = 320) (hvad : ∀ f ∈ S, vad f = true)
    (hne : S ≠ []) :
    processFrames vad st (S ++ rest) =
      processFrames vad ⟨st.buffer ++ S, 0, true⟩ rest := by
  induction S generalizing st with
  | nil => cases hne rfl
  | cons f S' ih =>
      have hf : f.length = 320 := hlen f (List.mem_cons_self f _)
      have hv : vad f = true := hvad f (List.mem_cons_self f _)
      rw [List.cons_append, processFrames_cons_speech vad st f (S' ++ rest) hf hv]
      by_cases hS' : S' = []
      · subst hS'
        rfl
      · rw [ih ⟨st.buffer ++ [f], 0, true⟩
            (fun g hg => hlen g (List.mem_cons_of_mem f hg))
            (fun g hg => hvad g (List.mem_cons_of_mem f hg)) hS']
        have harr : (st.buffer ++ [f]) ++ S' = st.buffer ++ (f :: S') := by simp
        rw [harr]

theorem processFrames_silence_phase (vad : List Int → Bool)
    (T : List (List Int)) (st : VADState)
    (hlen : ∀ f ∈ T, f.length = 320) (hvad : ∀ f ∈ T, vad f = false)
    (hsp : st.in_speech = true) (hcount : st.silence_counter + T.length = 16)
    (hne : T ≠ []) :
    processFrames vad st T = (true, some (st.buffer ++ T).flatten, VADState.reset) := by
  induction T generalizing st with
  | nil => cases hne rfl
  | cons f T' ih =>
      have hf : f.length = 320 := hlen f (List.mem_cons_self f _)
      have hv : vad f = false := hvad f (List.mem_cons_self f _)
      rw [List.length_cons] at hcount
      by_cases hT' : T' = []
      · subst hT'
        have hsc : 15 < st.silence_counter + 1 := by
          simp only [List.length_nil] at hcount
          omega
        rw [processFrames_cons_silence_final vad st f [] hf hv hsp hsc]
      · have hT'pos : 0 < T'.length := List.length_pos.mpr hT'
        have hsc : st.silence_counter + 1 ≤ 15 := by omega
        rw [processFrames_cons_silence_cont vad st f T' hf hv hsp hsc,
            ih ⟨st.buffer ++ [f], st.silence_counter + 1, st.in_speech⟩
              (fun g hg => hlen g (List.mem_cons_of_mem f hg))
              (fun g hg => hvad g (List.mem_cons_of_mem f hg))
              hsp (by show st.silence_counter + 1 + T'.length = 16; omega) hT']
        have harr : (st.buffer ++ [f]) ++ T' = st.buffer ++ (f :: T') := by simp
        rw [harr]

/-- Claim C4: from the reset state, feeding full-size frames all classified as
speech followed by 16 consecutive frames classified as silence (the first
moment the silence counter exceeds `MAX_SILENCE_FRAMES = 15`), `process_audio`
returns `(true, segment)` exactly once, where the segment is the concatenation
of all accumulated frames — the speech frames plus the trailing silence
frames — and the resulting segmenter state is fully reset: buffer empty,
silence counter 0, `in_speech` false. -/
theorem segmenter_single_utterance (vad : List Int → Bool)
    (S T : List (List Int)) (hS : S ≠ [])
    (hSlen : ∀ f ∈ S, f.length = 320) (hSvad : ∀ f ∈ S, vad f = true)
    (hTlen : ∀ f ∈ T, f.length = 320) (hTvad : ∀ f ∈ T, vad f = false)
    (hT : T.length = 16) :
    process_audio vad VADState.reset (S ++ T).flatten =
      Except.ok (true, some (S ++ T).flatten, VADState.reset) := by
  have hall : ∀ f ∈ S ++ T, f.length = 320 := by
    intro f hf
    rcases List.mem_append.mp hf with h | h
    · exact hSlen f h
    · exact hTlen f h
  have hne : S ++ T ≠ [] := by
    intro h
    exact hS (List.append_eq_nil.mp h).1
  have hTne : T ≠ [] := by
    intro h
    rw [h] at hT
    simp at hT
  rw [process_audio_full_frames vad _ (S ++ T) hne hall,
      processFrames_speech_phase vad S T VADState.reset hSlen hSvad hS,
      processFrames_silence_phase vad T ⟨VADState.reset.buffer ++ S, 0, true⟩
        hTlen hTvad rfl (by show 0 + T.length = 16; omega) hTne]
  show Except.ok (true, some ((([] : List (List Int)) ++ S) ++ T).flatten, VADState.reset) = _
  rw [List.nil_append]

/-- A concrete frame-level voice-activity classifier for the witness:
a frame counts as speech when its first sample is 1. -/
def headSampleVad : List Int → Bool := fun f => decide (f.headD 0 = 1)

/-- 20 frames of 320 samples classified as speech by `headSampleVad`. -/
def witnessSpeechFrames : List (List Int) := List.replicate 20 (List.replicate 320 1)

/-- 16 frames of 320 samples classified as silence by `headSampleVad`. -/
def witnessSilenceFrames : List (List Int) := List.replicate 16 (List.replicate 320 0)

theorem segmenter_single_utterance_witness :
    process_audio headSampleVad VADState.reset
        (witnessSpeechFrames ++ witnessSilenceFrames).flatten =
      Except.ok (true, some (witnessSpeechFrames ++ witnessSilenceFrames).flatten,
        VADState.reset) :=
  segmenter_single_utterance headSampleVad witnessSpeechFrames witnessSilenceFrames
    (by
      unfold witnessSpeechFrames
      exact List.ne_nil_of_length_pos (by rw [List.length_replicate]; omega))
    (fun f hf => by rw [List.eq_of_mem_replicate hf, List.length_replicate])
    (fun f hf => by
      rw [List.eq_of_mem_replicate hf]
      show decide ((List.replicate 320 (1 : Int)).headD 0 = 1) = true
      rw [show (320 : Nat) = 319 + 1 from rfl, List.replicate_succ]
      decide)
    (fun f hf => by rw [List.eq_of_mem_replicate hf, List.length_replicate])
    (fun f hf => by
      rw [List.eq_of_mem_replicate hf]
      show decide ((List.replicate 320 (0 : Int)).headD 0 = 1) = false
      rw [show (320 : Nat) = 319 + 1 from rfl, List.replicate_succ]
      decide)
    (by unfold witnessSilenceFrames; rw [List.length_replicate])

/-! ## Transcript state update and capability failure (main.py, whisper_provider.py) -/

theorem newPart_nil (p : List Char) : newPart p [] = [] := by
  unfold newPart
  split
  · rw [List.drop_nil]; rfl
  · rfl

/-- Claim C6, counterexample: with stored transcript `"hello"` and a cycle whose
raw transcript is `"hello "` the trimmed increment is empty — the handler
answers "waiting" — yet `prev_transcript` is updated to `"hello "`
(main.py line 119 runs unconditionally), so the Transcript State does not stay
unchanged on a no-new-content cycle. -/
theorem transcript_state_counterexample :
    (stream_chunk (fun _ => Except.ok "hello ".data) ⟨[], "hello".data⟩ [0]).1 =
        ChunkResponse.waiting ∧
    (stream_chunk (fun _ => Except.ok "hello ".data) ⟨[], "hello".data⟩ [0]).2.prev_transcript ≠
        "hello".data := by
  constructor
  · decide
  · decide

/-- Claim C6 (amended): the Transcript State is updated to the new raw
transcript on every cycle whose transcription succeeds, whether or not a
non-empty trimmed increment exists — also on the no-new-content cycles that
answer "waiting". -/
theorem transcript_state_always_updated
    (tr : List Int → Except (List Char) (List Char)) (st : ServerState)
    (pcm : List Int) (current : List Char)
    (h : tr (appendToBuffer st.audio_buffer pcm) = Except.ok current) :
    (stream_chunk tr st pcm).2.prev_transcript = current := by
  simp only [stream_chunk, h]
  split <;> rfl

theorem transcript_state_always_updated_witness :
    (stream_chunk (fun _ => Except.ok "hello ".data)
        ⟨[], "hello".data⟩ [0]).2.prev_transcript = "hello ".data :=
  transcript_state_always_updated (fun _ => Except.ok "hello ".data)
    ⟨[], "hello".data⟩ [0] "hello ".data rfl

/-- Claim C7, counterexample: when the engine invocation fails, the provider's
except branch (whisper_provider.py lines 127-129) returns `""` instead of
letting the failure surface; the chunk handler then answers the "waiting"
status — not an "error" event or error response — while the session continues. -/
theorem capability_failure_counterexample :
    stream_chunk (fun _ => Except.ok (whisper_transcribe (Except.error "boom".data)))
        ⟨[], "hi".data⟩ [0] =
      (ChunkResponse.waiting, ⟨[0], []⟩) := by decide

/-- Claim C7 (amended): a transcription-capability failure during one chunk is
caught inside the provider and converted to the empty transcript, so the
handler responds with the "waiting" status (never an "error" event), the
session stays usable, the buffer keeps its appended samples and the stored
transcript becomes empty. -/
theorem capability_failure_recovered
    (e : List Char) (st : ServerState) (pcm : List Int) :
    stream_chunk (fun _ => Except.ok (whisper_transcribe (Except.error e))) st pcm =
      (ChunkResponse.waiting, ⟨appendToBuffer st.audio_buffer pcm, []⟩) := by
  simp [stream_chunk, whisper_transcribe, newPart_nil]

/-! ## Provider language configuration (whisper_provider.py, deepgram_provider.py) -/

/-- Embeds `WhisperSTT.supported_languages` (whisper_provider.py lines 50-63),
verbatim, duplicates included. -/
def whisperSupportedLanguages : List String :=
  ["en", "hi", "gu", "bn", "ta", "te", "ml", "kn", "mr", "pa", "or", "as",
   "es", "fr", "de", "it", "pt", "ru", "ja", "ko", "zh", "ar", "tr", "pl",
   "nl", "sv", "da", "no", "fi", "cs", "hu", "ro", "bg", "hr", "sk", "sl",
   "et", "lv", "lt", "mt", "cy", "ga", "is", "mk", "sq", "sr", "uk", "be",
   "ka", "hy", "az", "kk", "ky", "uz", "mn", "ne", "si", "my", "km", "lo",
   "th", "vi", "id", "ms", "tl", "sw", "am", "ha", "ig", "yo", "zu", "xh",
   "af", "eu", "ca", "gl", "he", "fa", "ur", "ps", "sd", "dv", "bo", "dz",
   "ti", "om", "so", "rw", "rn", "ny", "sn", "st", "tn", "ts", "ve", "xh",
   "zu", "ss", "nr", "nso", "zu", "xh", "af", "sq", "eu", "ca", "gl", "is",
   "ga", "cy", "mt", "mk", "sq", "sr", "uk", "be", "ka", "hy", "az", "kk",
   "ky", "uz", "mn", "ne", "si", "my", "km", "lo", "th", "vi", "id", "ms",
   "tl", "sw", "am", "ha", "ig", "yo", "zu", "xh", "af"]

/-- Embeds `DeepgramSTT.supported_languages` (deepgram_provider.py lines 38-49),
verbatim, duplicates included. -/
def deepgramSupportedLanguages : List String :=
  ["en", "hi", "gu", "bn", "ta", "te", "ml", "kn", "mr", "pa", "or", "as",
   "es", "fr", "de", "it", "pt", "ru", "ja", "ko", "zh", "ar", "tr", "pl",
   "nl", "sv", "da", "no", "fi", "cs", "hu", "ro", "bg", "hr", "sk", "sl",
   "et", "lv", "lt", "mt", "cy", "ga", "is", "mk", "sq", "sr", "uk", "be",
   "ka", "hy", "az", "kk", "ky", "uz", "mn", "ne", "si", "my", "km", "lo",
   "th", "vi", "id", "ms", "tl", "sw", "am", "ha", "ig", "yo", "zu", "xh",
   "af", "sq", "eu", "ca", "gl", "is", "ga", "cy", "mt", "mk", "sq", "sr",
   "uk", "be", "ka", "hy", "az", "kk", "ky", "uz", "mn", "ne", "si", "my",
   "km", "lo", "th", "vi", "id", "ms", "tl", "sw", "am", "ha", "ig", "yo",
   "zu", "xh", "af"]

/-- The language-related mutable state of an STT provider: `self.language`
and the `language` entry of `self.config`. -/
structure ProviderLangConfig where
  language : String
  configLanguage : String
deriving DecidableEq, Repr

/-- Embeds `WhisperSTT.set_language` (whisper_provider.py lines 148-159): accepts
`auto` or a member of the supported list, recording it in both `self.language`
and `self.config`; otherwise raises `ValueError` before any mutation. -/
def whisper_set_language (_st : ProviderLangConfig) (language : String) :
    Except String ProviderLangConfig :=
  if language = "auto" ∨ language ∈ whisperSupportedLanguages then
    Except.ok ⟨language, language⟩
  else
    Except.error ("Language " ++ language ++ " not supported")

/-- Embeds `DeepgramSTT.set_language` (deepgram_provider.py lines 125-136): accepts
exactly the members of the supported list; otherwise raises `ValueError`
before any mutation. -/
def deepgram_set_language (_st : ProviderLangConfig) (language : String) :
    Except String ProviderLangConfig :=
  if language ∈ deepgramSupportedLanguages then
    Except.ok ⟨language, language⟩
  else
    Except.error ("Language " ++ language ++ " not supported")

/-- Claim C8, counterexample: `auto` is not in the Whisper provider's
supported-language list, yet `set_language("auto")` succeeds and records it
instead of raising an invalid-argument failure. -/
theorem set_language_counterexample :
    ("auto" ∉ whisperSupportedLanguages) ∧
    whisper_set_language ⟨"en", "en"⟩ "auto" = Except.ok ⟨"auto", "auto"⟩ := by
  constructor
  · decide
  · rfl

/-- Claim C8 (amended): for the Deepgram provider the claim holds as stated:
a code outside the supported list raises `ValueError` with no mutation (the
raise is the whole effect), and a supported code is recorded.  For the
Whisper provider the special code `auto` is additionally accepted: the raise
happens exactly for codes that are neither `auto` nor in the list, and
`auto` or any listed code is recorded. -/
theorem set_language_invalid_argument :
    (∀ (st : ProviderLangConfig) (lang : String),
        lang ∉ deepgramSupportedLanguages →
        deepgram_set_language st lang =
          Except.error ("Language " ++ lang ++ " not supported")) ∧
    (∀ (st : ProviderLangConfig) (lang : String),
        lang ∈ deepgramSupportedLanguages →
        deepgram_set_language st lang = Except.ok ⟨lang, lang⟩) ∧
    (∀ (st : ProviderLangConfig) (lang : String),
        lang ≠ "auto" → lang ∉ whisperSupportedLanguages →
        whisper_set_language st lang =
          Except.error ("Language " ++ lang ++ " not supported")) ∧
    (∀ (st : ProviderLangConfig) (lang : String),
        lang = "auto" ∨ lang ∈ whisperSupportedLanguages →
        whisper_set_language st lang = Except.ok ⟨lang, lang⟩) := by
  refine ⟨?_, ?_, ?_, ?_⟩
  · intro st lang h
    simp [deepgram_set_language, h]
  · intro st lang h
    simp [deepgram_set_language, h]
  · intro st lang h1 h2
    rw [whisper_set_language, if_neg]
    rintro (h | h)
    · exact h1 h
    · exact h2 h
  · intro st lang h
    simp [whisper_set_language, h]

theorem set_language_invalid_argument_witness :
    (("qq" ∉ deepgramSupportedLanguages) ∧
      deepgram_set_language ⟨"en", "en"⟩ "qq" =
        Except.error ("Language " ++ "qq" ++ " not supported")) ∧
    (("hi" ∈ deepgramSupportedLanguages) ∧
      deepgram_set_language ⟨"en", "en"⟩ "hi" = Except.ok ⟨"hi", "hi"⟩) ∧
    (("qq" ≠ "auto") ∧ ("qq" ∉ whisperSupportedLanguages) ∧
      whisper_set_language ⟨"en", "en"⟩ "qq" =
        Except.error ("Language " ++ "qq" ++ " not supported")) ∧
    whisper_set_language ⟨"en", "en"⟩ "auto" = Except.ok ⟨"auto", "auto"⟩ :=
  ⟨⟨by decide, set_language_invalid_argument.1 ⟨"en", "en"⟩ "qq" (by decide)⟩,
   ⟨by decide, set_language_invalid_argument.2.1 ⟨"en", "en"⟩ "hi" (by decide)⟩,
   ⟨by decide, by decide,
    set_language_invalid_argument.2.2.1 ⟨"en", "en"⟩ "qq" (by decide) (by decide)⟩,
   set_language_invalid_argument.2.2.2 ⟨"en", "en"⟩ "auto" (Or.inl rfl)⟩

/-! ## Session teardown (modelled from the spec) and the translate endpoint -/

/-- Modelled from the spec: the session lifecycle states of §4.4
(`ACTIVE → CLOSING → CLOSED`); the repository has no persistent-connection
session component, only the request/response endpoint. -/
inductive SessionPhase where
  | ACTIVE
  | CLOSING
  | CLOSED
deriving DecidableEq, Repr

/-- Modelled from the spec: a session aggregate holding the accumulated
finalized utterance texts and the lifecycle phase. -/
structure Session where
  finals : List (List Char)
  phase : SessionPhase
deriving DecidableEq, Repr

/-- The outbound structured events of §6. -/
inductive SessionEvent where
  | partialEvt : List Char → SessionEvent
  | finalEvt : List Char → SessionEvent
  | final_full : List Char → SessionEvent
  | errorEvt : List Char → SessionEvent
deriving DecidableEq, Repr

/-- Modelled from the spec (§4.4, on transport close/disconnect while ACTIVE
or CLOSING): if any accumulated final-utterance text exists, emit one
`final_full` event with the whitespace-joined, trimmed concatenation, then
transition to CLOSED and release all buffers; a CLOSED session does nothing. -/
def session_disconnect (s : Session) : List SessionEvent × Session :=
  match s.phase with
  | SessionPhase.ACTIVE | SessionPhase.CLOSING =>
      if s.finals ≠ [] then
        ([SessionEvent.final_full (pyStrip (List.intercalate " ".data s.finals))],
         ⟨[], SessionPhase.CLOSED⟩)
      else ([], ⟨[], SessionPhase.CLOSED⟩)
  | SessionPhase.CLOSED => ([], s)

/-- Modelled from the spec (§4.4, per-chunk cycle): a non-empty increment on
an ACTIVE session emits one `partial` event; a session that is not ACTIVE
emits nothing. -/
def session_on_chunk (s : Session) (increment : List Char) :
    List SessionEvent × Session :=
  match s.phase with
  | SessionPhase.ACTIVE =>
      (if increment ≠ [] then [SessionEvent.partialEvt increment] else [], s)
  | _ => ([], s)

/-- Claim C9: disconnecting an ACTIVE session that has accumulated finalized
utterance texts emits exactly one `final_full` event carrying the
whitespace-joined, trimmed concatenation of those texts, transitions to
CLOSED, and afterwards no stimulus — another chunk or another disconnect —
emits any further event. -/
theorem session_teardown (s : Session) (hph : s.phase = SessionPhase.ACTIVE)
    (hfin : s.finals ≠ []) :
    (session_disconnect s).1 =
      [SessionEvent.final_full (pyStrip (List.intercalate " ".data s.finals))] ∧
    (session_disconnect s).2.phase = SessionPhase.CLOSED ∧
    (∀ increment, (session_on_chunk (session_disconnect s).2 increment).1 = []) ∧
    (session_disconnect (session_disconnect s).2).1 = [] := by
  have hd : session_disconnect s =
      ([SessionEvent.final_full (pyStrip (List.intercalate " ".data s.finals))],
       ⟨[], SessionPhase.CLOSED⟩) := by
    unfold session_disconnect
    rw [hph]
    simp [hfin]
  refine ⟨by rw [hd], by rw [hd], ?_, ?_⟩
  · intro increment
    rw [hd]
    rfl
  · rw [hd]
    rfl

theorem session_teardown_witness :
    ((["hello".data, "world".data] : List (List Char)) ≠ []) ∧
    (session_disconnect ⟨["hello".data, "world".data], SessionPhase.ACTIVE⟩).1 =
      [SessionEvent.final_full
        (pyStrip (List.intercalate " ".data ["hello".data, "world".data]))] ∧
    pyStrip (List.intercalate " ".data ["hello".data, "world".data]) =
      "hello world".data :=
  ⟨by decide,
   (session_teardown ⟨["hello".data, "world".data], SessionPhase.ACTIVE⟩
      rfl (by decide)).1,
   by decide⟩

/-- The request schema of the translate endpoints (schemas/schema.py). -/
structure TextRequest where
  text : String
  src_lang : String
  tgt_lang : String
deriving DecidableEq, Repr

/-- The responses of the `/translate` endpoint: `{"translated": ...}` on
success, or a 500 response carrying `str(e)`. -/
inductive TranslateResponse where
  | translated : String → TranslateResponse
  | error500 : String → TranslateResponse
deriving DecidableEq, Repr

/-- The number of parameters of `translate_en_hi` (indic_trans.py line 10):
`def translate_en_hi(text: str) -> str`. -/
def translate_en_hi_paramCount : Nat := 1

/-- A Python call of the single-parameter `translate_en_hi` with an explicit
argument list: the interpreter raises `TypeError` before running the body
whenever the arity does not match. -/
def call_translate_en_hi (translate_en_hi : String → String)
    (args : List String) : Except String String :=
  if args.length = translate_en_hi_paramCount then
    Except.ok (translate_en_hi (args.headD ""))
  else
    Except.error "translate_en_hi takes 1 positional argument but more were given"

/-- The `/translate` handler (main.py lines 129-135): it invokes
`translate_en_hi(req.text, req.src_lang, req.tgt_lang)` — three positional
arguments — inside try/except, answering 500 with the exception text on
failure. -/
def translate_endpoint (translate_en_hi : String → String) (req : TextRequest) :
    TranslateResponse :=
  match call_translate_en_hi translate_en_hi [req.text, req.src_lang, req.tgt_lang] with
  | Except.ok t => TranslateResponse.translated t
  | Except.error e => TranslateResponse.error500 e

/-- Claim C10: every call of the POST /translate endpoint answers the 500
error response, for every request body and whatever the translation function
would compute: the three-argument invocation of the one-parameter
`translate_en_hi` always raises `TypeError`, so the handler always takes its
exception branch and never returns a translated result. -/
theorem translate_always_errors (translate_en_hi : String → String)
    (req : TextRequest) :
    translate_endpoint translate_en_hi req =
      TranslateResponse.error500
        "translate_en_hi takes 1 positional argument but more were given" := rfl
